import Mathlib

/-!
# Verification of the CUDA device-array core (`CudaArray.cpp`)

Shallow embedding of `src/platforms/cuda/src/CudaArray.cpp`.  Each member
function of `CudaArray` is translated to a pure Lean function on an explicit
record of the object's fields.  The CUDA driver primitives (`cuMemAlloc`,
`cuMemFree`, `cuMemcpy*`) are external collaborators: their status codes and
the address returned by a successful allocation are passed in as explicit
arguments, and the sequence of guard acquisitions and driver invocations an
operation performs is returned as an explicit event trace, so that temporal
claims ("the call runs inside a guarded scope") become statements about the
trace.

Machine integers: `size_t` and `CUdeviceptr` are 64-bit unsigned and are
modelled as `Nat` together with explicit reduction modulo `2 ^ 64` where a
C++ conversion from a signed value occurs; the C `int` parameters
(`elementSize`, `offset`, `elements`) are modelled as `Int`.
-/

namespace CudaArrayModel

/-- The driver's success status: `CUDA_SUCCESS` is `0`. -/
def CUDA_SUCCESS : Nat := 0

/-- One more than the largest `size_t` / `CUdeviceptr` value (64-bit). -/
def wordMod : Nat := 2 ^ 64

/-- C++ conversion of a signed integral value to a 64-bit unsigned type
(`size_t` or `CUdeviceptr`): reduction modulo `2 ^ 64`. -/
def toU64 (n : Int) : Nat := (n % (wordMod : Int)).toNat

/-- The byte count `size * elementSize` as computed in C++: the `int`
`elementSize` is converted to `size_t` and the product is taken
modulo `2 ^ 64`. -/
def byteCount (sz : Nat) (es : Int) : Nat := sz * toU64 es % wordMod

/-- The driver primitives invoked by `CudaArray`, with the arguments the
code passes to them. -/
inductive DriverOp where
  | memAlloc (bytes : Nat)
  | memFree (ptr : Nat)
  | memcpyHtoD (dst : Nat) (bytes : Nat)
  | memcpyHtoDAsync (dst : Nat) (bytes : Nat) (stream : Nat)
  | memcpyDtoH (src : Nat) (bytes : Nat)
  | memcpyDtoHAsync (src : Nat) (bytes : Nat) (stream : Nat)
  | memcpyDtoDAsync (dst : Nat) (src : Nat) (bytes : Nat) (stream : Nat)
  deriving DecidableEq

/-- Observable events of one operation: `ContextSelector` construction and
destruction (guard acquire/release for a context id), the `unwrap`
downcast of a destination buffer, and driver calls. -/
inductive Event where
  | guardAcquire (ctx : Nat)
  | guardRelease (ctx : Nat)
  | unwrapDest
  | driverCall (op : DriverOp)
  deriving DecidableEq

/-- The fields of a `CudaArray` object.  `pointer` is the `CUdeviceptr`
(`0` when uninitialized), `size` the `size_t` element count, `elementSize`
the C `int` element size, `context` the identity of the owning
`CudaContext` (a back-reference, modelled as an id). -/
structure CudaArray where
  pointer : Nat
  size : Nat
  elementSize : Int
  name : String
  ownsMemory : Bool
  context : Nat
  deriving DecidableEq

/-- Modelled from the spec: the header `CudaArray.h` is not part of the
translated source; per the spec's data model, `getSize` exposes the logical
element count as the unsigned size type (`size_t`), so a signed expression
compared against it is converted to `size_t` first. -/
def CudaArray.getSize (a : CudaArray) : Nat := a.size

/-- Modelled from the spec: `CudaContext::getErrorString` is outside the
translated source; per the spec it maps a status code to a human-readable
description.  Modelled as an executable function of the code. -/
def getErrorString (result : Nat) : String := "status " ++ toString result

/-- Outcome of one member-function call: the object state afterwards, the
exception message if one was thrown, and the trace of guard/driver events
performed. -/
structure OpResult where
  state : CudaArray
  error : Option String
  events : List Event
  deriving DecidableEq

/- Exception message builders, assembled exactly as the `stringstream`
code assembles them. -/

def notInitializedMsg : String := "CudaArray has not been initialized"

def alreadyInitializedMsg : String := "CudaArray has already been initialized"

def cannotResizeMsg : String := "Cannot resize an array that does not own its storage"

def boundsMsg : String := "uploadSubArray: data exceeds range of array"

def deleteErrorMsg (nm : String) (result : Nat) : String :=
  "Error deleting array " ++ nm ++ ": " ++ getErrorString result ++ " (" ++ toString result ++ ")"

def createErrorMsg (nm : String) (result : Nat) : String :=
  "Error creating array " ++ nm ++ ": " ++ getErrorString result ++ " (" ++ toString result ++ ")"

def uploadErrorMsg (nm : String) (result : Nat) : String :=
  "Error uploading array " ++ nm ++ ": " ++ getErrorString result ++ " (" ++ toString result ++ ")"

def downloadErrorMsg (nm : String) (result : Nat) : String :=
  "Error downloading array " ++ nm ++ ": " ++ getErrorString result ++ " (" ++ toString result ++ ")"

def copyShapeMsg (srcName destName : String) : String :=
  "Error copying array " ++ srcName ++ " to " ++ destName ++
    ": The destination array does not match the size of the array"

def copyErrorMsg (srcName destName : String) (result : Nat) : String :=
  "Error copying array " ++ srcName ++ " to " ++ destName ++ ": " ++
    getErrorString result ++ " (" ++ toString result ++ ")"

/-- `CudaArray::initialize(context, size, elementSize, name)`.
`allocResult` is the status `cuMemAlloc` reports and `allocPtr` the device
address it writes on success (on failure the output pointer is left
unchanged; modelled from the spec's driver contract).  The code stores
`context`, `size`, `elementSize`, `name` and sets `ownsMemory = true`
before entering the guarded scope and attempting the allocation. -/
def CudaArray.initialize (a : CudaArray) (ctx : Nat) (sz : Nat) (es : Int)
    (nm : String) (allocResult : Nat) (allocPtr : Nat) : OpResult :=
  if a.pointer ≠ 0 then
    { state := a, error := some alreadyInitializedMsg, events := [] }
  else if allocResult ≠ CUDA_SUCCESS then
    { state := { pointer := a.pointer, size := sz, elementSize := es, name := nm,
                 ownsMemory := true, context := ctx },
      error := some (createErrorMsg nm allocResult),
      events := [Event.guardAcquire ctx,
                 Event.driverCall (DriverOp.memAlloc (byteCount sz es)),
                 Event.guardRelease ctx] }
  else
    { state := { pointer := allocPtr, size := sz, elementSize := es, name := nm,
                 ownsMemory := true, context := ctx },
      error := none,
      events := [Event.guardAcquire ctx,
                 Event.driverCall (DriverOp.memAlloc (byteCount sz es)),
                 Event.guardRelease ctx] }

/-- `CudaArray::~CudaArray()`.  `contextIsValid` is what
`context->getContextIsValid()` reports, `freeResult` the status of
`cuMemFree` when it is reached. -/
def CudaArray.destructor (a : CudaArray) (contextIsValid : Bool)
    (freeResult : Nat) : OpResult :=
  if a.pointer ≠ 0 ∧ a.ownsMemory = true ∧ contextIsValid = true then
    if freeResult ≠ CUDA_SUCCESS then
      { state := a, error := some (deleteErrorMsg a.name freeResult),
        events := [Event.guardAcquire a.context,
                   Event.driverCall (DriverOp.memFree a.pointer),
                   Event.guardRelease a.context] }
    else
      { state := a, error := none,
        events := [Event.guardAcquire a.context,
                   Event.driverCall (DriverOp.memFree a.pointer),
                   Event.guardRelease a.context] }
  else
    { state := a, error := none, events := [] }

/-- `CudaArray::resize(size)`.  The `ContextSelector` constructed in
`resize` stays alive across the nested `initialize` call, so the trace of a
successful resize is the free wrapped by the outer guard with the
initialize trace (its own nested guard included) in between.  The throw on
a failed free happens before `pointer = 0` is executed, so the state is
returned unchanged on that path. -/
def CudaArray.resize (a : CudaArray) (newSize freeResult allocResult allocPtr : Nat) :
    OpResult :=
  if a.pointer = 0 then
    { state := a, error := some notInitializedMsg, events := [] }
  else if a.ownsMemory = false then
    { state := a, error := some cannotResizeMsg, events := [] }
  else if freeResult ≠ CUDA_SUCCESS then
    { state := a, error := some (deleteErrorMsg a.name freeResult),
      events := [Event.guardAcquire a.context,
                 Event.driverCall (DriverOp.memFree a.pointer),
                 Event.guardRelease a.context] }
  else
    { state := ( CudaArray.initialize { a with pointer := 0 } a.context newSize
                  a.elementSize a.name allocResult allocPtr).state,
      error := ( CudaArray.initialize { a with pointer := 0 } a.context newSize
                  a.elementSize a.name allocResult allocPtr).error,
      events := Event.guardAcquire a.context ::
        Event.driverCall (DriverOp.memFree a.pointer) ::
        (( CudaArray.initialize { a with pointer := 0 } a.context newSize
            a.elementSize a.name allocResult allocPtr).events ++
          [Event.guardRelease a.context]) }

/-- The copy primitive `uploadSubArray` invokes: destination device address
`pointer + offset*elementSize` and byte count `elements*elementSize`, each
with the C++ conversion of the signed product to the unsigned parameter
type. -/
def uploadOp (a : CudaArray) (offset elements : Int) (blocking : Bool)
    (stream : Nat) : DriverOp :=
  if blocking then
    DriverOp.memcpyHtoD (toU64 ((a.pointer : Int) + offset * a.elementSize))
      (toU64 (elements * a.elementSize))
  else
    DriverOp.memcpyHtoDAsync (toU64 ((a.pointer : Int) + offset * a.elementSize))
      (toU64 (elements * a.elementSize)) stream

/-- `CudaArray::uploadSubArray(data, offset, elements, blocking)`.  The
bounds test `offset < 0 || offset+elements > getSize()` compares the `int`
sum against the `size_t` count, so the sum is converted to `size_t`
(`toU64`) for the comparison.  No `ContextSelector` is constructed. -/
def CudaArray.uploadSubArray (a : CudaArray) (offset elements : Int)
    (blocking : Bool) (copyResult stream : Nat) : OpResult :=
  if a.pointer = 0 then
    { state := a, error := some notInitializedMsg, events := [] }
  else if offset < 0 ∨ a.getSize < toU64 (offset + elements) then
    { state := a, error := some boundsMsg, events := [] }
  else if copyResult ≠ CUDA_SUCCESS then
    { state := a, error := some (uploadErrorMsg a.name copyResult),
      events := [Event.driverCall (uploadOp a offset elements blocking stream)] }
  else
    { state := a, error := none,
      events := [Event.driverCall (uploadOp a offset elements blocking stream)] }

/-- `CudaArray::download(data, blocking)`.  Copies the whole buffer
(`size*elementSize` bytes) device-to-host.  No `ContextSelector` is
constructed. -/
def CudaArray.download (a : CudaArray) (blocking : Bool)
    (copyResult stream : Nat) : OpResult :=
  if a.pointer = 0 then
    { state := a, error := some notInitializedMsg, events := [] }
  else if copyResult ≠ CUDA_SUCCESS then
    { state := a, error := some (downloadErrorMsg a.name copyResult),
      events := [Event.driverCall
        (if blocking then DriverOp.memcpyDtoH a.pointer (byteCount a.size a.elementSize)
         else DriverOp.memcpyDtoHAsync a.pointer (byteCount a.size a.elementSize) stream)] }
  else
    { state := a, error := none,
      events := [Event.driverCall
        (if blocking then DriverOp.memcpyDtoH a.pointer (byteCount a.size a.elementSize)
         else DriverOp.memcpyDtoHAsync a.pointer (byteCount a.size a.elementSize) stream)] }

/-- `CudaArray::copyTo(dest)`.  The shape check
`dest.getSize() != size || dest.getElementSize() != elementSize` precedes
the `context->unwrap(dest)` downcast (recorded as `Event.unwrapDest`) and
the device-to-device copy.  No `ContextSelector` is constructed. -/
def CudaArray.copyTo (a : CudaArray) (dest : CudaArray)
    (copyResult stream : Nat) : OpResult :=
  if a.pointer = 0 then
    { state := a, error := some notInitializedMsg, events := [] }
  else if dest.getSize ≠ a.size ∨ dest.elementSize ≠ a.elementSize then
    { state := a, error := some (copyShapeMsg a.name dest.name), events := [] }
  else if copyResult ≠ CUDA_SUCCESS then
    { state := a, error := some (copyErrorMsg a.name dest.name copyResult),
      events := [Event.unwrapDest,
                 Event.driverCall (DriverOp.memcpyDtoDAsync dest.pointer a.pointer
                   (byteCount a.size a.elementSize) stream)] }
  else
    { state := a, error := none,
      events := [Event.unwrapDest,
                 Event.driverCall (DriverOp.memcpyDtoDAsync dest.pointer a.pointer
                   (byteCount a.size a.elementSize) stream)] }

/-- Scans a trace keeping the number of currently open guard scopes and
checks that every driver call happens while at least one scope is open. -/
def callsGuardedFrom : Nat → List Event → Bool
  | _, [] => true
  | depth, Event.guardAcquire _ :: rest => callsGuardedFrom (depth + 1) rest
  | depth, Event.guardRelease _ :: rest => callsGuardedFrom (depth - 1) rest
  | depth, Event.unwrapDest :: rest => callsGuardedFrom depth rest
  | depth, Event.driverCall _ :: rest => decide (0 < depth) && callsGuardedFrom depth rest

/-- Every driver call in the trace happens inside an open guard scope. -/
def allCallsGuarded (tr : List Event) : Bool := callsGuardedFrom 0 tr

/-- The trace contains at least one driver call. -/
def hasDriverCall (tr : List Event) : Bool :=
  tr.any fun e =>
    match e with
    | Event.driverCall _ => true
    | _ => false

/-- The trace contains at least one guard acquisition. -/
def hasGuardAcquire (tr : List Event) : Bool :=
  tr.any fun e =>
    match e with
    | Event.guardAcquire _ => true
    | _ => false

/-- The trace contains a `cuMemFree` call. -/
def hasFree (tr : List Event) : Bool :=
  tr.any fun e =>
    match e with
    | Event.driverCall (DriverOp.memFree _) => true
    | _ => false

/-- The trace contains a `cuMemAlloc` call. -/
def hasAlloc (tr : List Event) : Bool :=
  tr.any fun e =>
    match e with
    | Event.driverCall (DriverOp.memAlloc _) => true
    | _ => false

/-- A value already in `[0, 2^64)` is unchanged by the conversion to the
unsigned 64-bit type. -/
theorem toU64_coe_of_nonneg {n : Int} (h0 : 0 ≤ n) (h1 : n < (wordMod : Nat)) :
    (toU64 n : Int) = n := by
  unfold toU64
  rw [Int.emod_eq_of_lt h0 h1, Int.toNat_of_nonneg h0]

/-- A negative value in `[-2^64, 0)` converts to `n + 2^64`. -/
theorem toU64_coe_of_neg {n : Int} (h0 : -(wordMod : Nat) ≤ n) (h1 : n < 0) :
    (toU64 n : Int) = n + (wordMod : Nat) := by
  have hw : (0 : Int) < (wordMod : Nat) := by norm_num [wordMod]
  have e1 : n % ((wordMod : Nat) : Int) = (n + (wordMod : Nat) * 1) % (wordMod : Nat) := by
    rw [Int.add_mul_emod_self_left]
  have e2 : (n + ((wordMod : Nat) : Int) * 1) % (wordMod : Nat) = n + (wordMod : Nat) := by
    rw [mul_one]
    exact Int.emod_eq_of_lt (by linarith) (by linarith)
  unfold toU64
  rw [e1, e2, Int.toNat_of_nonneg (by linarith)]

/-- A negative sum not below `-2^63` converts to a `size_t` value exceeding
any element count below `2^63`, so the bounds comparison fires. -/
theorem size_lt_toU64_of_neg {n : Int} {sz : Nat} (hsz : (sz : Int) < 2 ^ 63)
    (hlo : -(2 ^ 63) ≤ n) (hneg : n < 0) : sz < toU64 n := by
  have hw : ((wordMod : Nat) : Int) = 2 ^ 64 := by norm_num [wordMod]
  have h0 : -((wordMod : Nat) : Int) ≤ n := by
    rw [hw]; norm_num at hlo ⊢; linarith
  have hval : (toU64 n : Int) = n + (wordMod : Nat) := toU64_coe_of_neg h0 hneg
  have : (sz : Int) < toU64 n := by
    rw [hval, hw]; norm_num at hlo ⊢; linarith
  exact_mod_cast this

/- Sanity checks of the embedding on concrete inputs. -/

example :
    (CudaArray.uploadSubArray
      { pointer := 100, size := 10, elementSize := 4, name := "a",
        ownsMemory := true, context := 1 } 2 3 true 0 0).events =
    [Event.driverCall (DriverOp.memcpyHtoD 108 12)] := by decide

example :
    (CudaArray.uploadSubArray
      { pointer := 100, size := 10, elementSize := 4, name := "a",
        ownsMemory := true, context := 1 } 2 9 true 0 0).error = some boundsMsg := by
  decide

/-- C7: calling `initialize` on an already-initialized array (`pointer ≠ 0`)
throws the state-misuse exception and changes no attribute of the array:
the state is returned exactly as it was, and no driver or guard event
occurs. -/
theorem c7_initialize_twice (a : CudaArray) (ctx sz : Nat) (es : Int)
    (nm : String) (allocResult allocPtr : Nat) (hp : a.pointer ≠ 0) :
    ( a.initialize ctx sz es nm allocResult allocPtr).error = some alreadyInitializedMsg ∧
    ( a.initialize ctx sz es nm allocResult allocPtr).state = a ∧
    ( a.initialize ctx sz es nm allocResult allocPtr).events = [] := by
  unfold CudaArray.initialize
  simp [hp]

/-- Witness for C7 at a concrete initialized array. -/
theorem c7_initialize_twice_witness :
    ( CudaArray.initialize
      { pointer := 100, size := 10, elementSize := 4, name := "a",
        ownsMemory := true, context := 1 } 2 5 8 "b" 0 300).error =
        some alreadyInitializedMsg ∧
    ( CudaArray.initialize
      { pointer := 100, size := 10, elementSize := 4, name := "a",
        ownsMemory := true, context := 1 } 2 5 8 "b" 0 300).state =
      { pointer := 100, size := 10, elementSize := 4, name := "a",
        ownsMemory := true, context := 1 } ∧
    ( CudaArray.initialize
      { pointer := 100, size := 10, elementSize := 4, name := "a",
        ownsMemory := true, context := 1 } 2 5 8 "b" 0 300).events = [] := by
  exact c7_initialize_twice _ 2 5 8 "b" 0 300 (by decide)

/-- C8: `resize` on an uninitialized array or on an array that does not own
its memory throws the corresponding misuse exception, performs no guard or
driver event (in particular no free and no allocation), and leaves the
state unchanged. -/
theorem c8_resize_misuse (a : CudaArray) (newSize freeResult allocResult allocPtr : Nat)
    (h : a.pointer = 0 ∨ a.ownsMemory = false) :
    (a.resize newSize freeResult allocResult allocPtr).state = a ∧
    (a.resize newSize freeResult allocResult allocPtr).events = [] ∧
    (a.resize newSize freeResult allocResult allocPtr).error =
      some (if a.pointer = 0 then notInitializedMsg else cannotResizeMsg) := by
  rcases h with hp | ho
  · unfold CudaArray.resize
    simp [hp]
  · by_cases hp : a.pointer = 0
    · unfold CudaArray.resize
      simp [hp]
    · unfold CudaArray.resize
      simp [hp, ho]

/-- Witness for C8 at a concrete non-owning initialized array. -/
theorem c8_resize_misuse_witness :
    (CudaArray.resize
      { pointer := 100, size := 10, elementSize := 4, name := "a",
        ownsMemory := false, context := 1 } 5 0 0 300).state =
      { pointer := 100, size := 10, elementSize := 4, name := "a",
        ownsMemory := false, context := 1 } ∧
    (CudaArray.resize
      { pointer := 100, size := 10, elementSize := 4, name := "a",
        ownsMemory := false, context := 1 } 5 0 0 300).events = [] ∧
    (CudaArray.resize
      { pointer := 100, size := 10, elementSize := 4, name := "a",
        ownsMemory := false, context := 1 } 5 0 0 300).error =
      some cannotResizeMsg := by
  simpa using c8_resize_misuse
    { pointer := 100, size := 10, elementSize := 4, name := "a",
      ownsMemory := false, context := 1 } 5 0 0 300 (Or.inr rfl)

/-- C2 (counterexample): on a failed free during `resize`, the handle is
not cleared to `0`: the exception is thrown before the `pointer = 0`
assignment, so the state keeps the old handle `100`. -/
theorem c2_counterexample :
    (CudaArray.resize
      { pointer := 100, size := 10, elementSize := 4, name := "a",
        ownsMemory := true, context := 1 } 5 7 0 300).state.pointer = 100 ∧
    (CudaArray.resize
      { pointer := 100, size := 10, elementSize := 4, name := "a",
        ownsMemory := true, context := 1 } 5 7 0 300).error =
      some (deleteErrorMsg "a" 7) := by decide

/-- C2 (amended): when the free step of `resize` reports a non-success
status on an initialized owning array, `resize` throws the driver error
before any new allocation is attempted (no `memAlloc` in the trace), but
the array's state — the old nonzero handle included — is left unchanged,
so a subsequent destruction or resize can attempt to free the old handle
again. -/
theorem c2_resize_free_failure (a : CudaArray)
    (newSize freeResult allocResult allocPtr : Nat)
    (hp : a.pointer ≠ 0) (ho : a.ownsMemory = true)
    (hf : freeResult ≠ CUDA_SUCCESS) :
    (a.resize newSize freeResult allocResult allocPtr).state = a ∧
    (a.resize newSize freeResult allocResult allocPtr).error =
      some (deleteErrorMsg a.name freeResult) ∧
    hasAlloc (a.resize newSize freeResult allocResult allocPtr).events = false := by
  unfold CudaArray.resize
  simp [hp, ho, hf, hasAlloc]

/-- Witness for C2's amended theorem at a concrete array and status. -/
theorem c2_resize_free_failure_witness :
    (CudaArray.resize
      { pointer := 100, size := 10, elementSize := 4, name := "a",
        ownsMemory := true, context := 1 } 5 7 0 300).state =
      { pointer := 100, size := 10, elementSize := 4, name := "a",
        ownsMemory := true, context := 1 } ∧
    (CudaArray.resize
      { pointer := 100, size := 10, elementSize := 4, name := "a",
        ownsMemory := true, context := 1 } 5 7 0 300).error =
      some (deleteErrorMsg "a" 7) ∧
    hasAlloc (CudaArray.resize
      { pointer := 100, size := 10, elementSize := 4, name := "a",
        ownsMemory := true, context := 1 } 5 7 0 300).events = false := by
  exact c2_resize_free_failure _ 5 7 0 300 (by decide) rfl (by decide)

/-- C3 (counterexample): a failed `initialize` on a fresh array does retain
partial state: `ownsMemory` has been set to `true` and `size` to the
requested count even though the allocation failed, contradicting the claim
that all attributes other than the handle are as they were before the
call. -/
theorem c3_counterexample :
    ( CudaArray.initialize
      { pointer := 0, size := 0, elementSize := 0, name := "",
        ownsMemory := false, context := 0 } 7 5 4 "x" 1 300).state.ownsMemory = true ∧
    ( CudaArray.initialize
      { pointer := 0, size := 0, elementSize := 0, name := "",
        ownsMemory := false, context := 0 } 7 5 4 "x" 1 300).state.size = 5 := by
  decide

/-- C3 (amended): when the allocation primitive fails during `initialize`
on an uninitialized array, a descriptive allocation failure naming the
buffer and status is raised and the handle stays `0`, but the other
attributes do not stay as they were: `context`, `elementCount`,
`elementSize` and `name` are set to the call's arguments and `ownsMemory`
is set to `true` before the allocation is attempted. -/
theorem c3_initialize_alloc_failure (a : CudaArray) (ctx sz : Nat) (es : Int)
    (nm : String) (allocResult allocPtr : Nat)
    (hp : a.pointer = 0) (hr : allocResult ≠ CUDA_SUCCESS) :
    ( a.initialize ctx sz es nm allocResult allocPtr).error =
      some (createErrorMsg nm allocResult) ∧
    ( a.initialize ctx sz es nm allocResult allocPtr).state =
      { pointer := 0, size := sz, elementSize := es, name := nm,
        ownsMemory := true, context := ctx } := by
  unfold CudaArray.initialize
  simp [hp, hr]

/-- Witness for C3's amended theorem at a concrete fresh array. -/
theorem c3_initialize_alloc_failure_witness :
    ( CudaArray.initialize
      { pointer := 0, size := 0, elementSize := 0, name := "",
        ownsMemory := false, context := 0 } 7 5 4 "x" 1 300).error =
      some (createErrorMsg "x" 1) ∧
    ( CudaArray.initialize
      { pointer := 0, size := 0, elementSize := 0, name := "",
        ownsMemory := false, context := 0 } 7 5 4 "x" 1 300).state =
      { pointer := 0, size := 5, elementSize := 4, name := "x",
        ownsMemory := true, context := 7 } := by
  exact c3_initialize_alloc_failure _ 7 5 4 "x" 1 300 rfl (by decide)

/-- C5: destruction issues the driver free exactly when the handle is
nonzero, the array owns its memory and the owning context is still valid;
an invalid context produces an empty trace (no free attempted); and on the
taken path a non-success free status raises the failure naming the
buffer. -/
theorem c5_destructor_free (a : CudaArray) (contextIsValid : Bool)
    (freeResult : Nat) :
    (hasFree (a.destructor contextIsValid freeResult).events = true ↔
      (a.pointer ≠ 0 ∧ a.ownsMemory = true ∧ contextIsValid = true)) ∧
    (contextIsValid = false →
      (a.destructor contextIsValid freeResult).events = []) ∧
    (a.pointer ≠ 0 → a.ownsMemory = true → contextIsValid = true →
      freeResult ≠ CUDA_SUCCESS →
      (a.destructor contextIsValid freeResult).error =
        some (deleteErrorMsg a.name freeResult)) := by
  by_cases h : a.pointer ≠ 0 ∧ a.ownsMemory = true ∧ contextIsValid = true
  · obtain ⟨h1, h2, h3⟩ := h
    by_cases hf : freeResult ≠ CUDA_SUCCESS
    · unfold CudaArray.destructor
      simp [h1, h2, h3, hf, hasFree]
    · unfold CudaArray.destructor
      simp [h1, h2, h3, hf, hasFree]
  · refine ⟨?_, ?_, ?_⟩
    · unfold CudaArray.destructor
      simp only [if_neg h]
      simp [hasFree]
      exact fun h1 h2 => by
        by_contra h3
        exact h ⟨h1, h2, by revert h3; cases contextIsValid <;> simp⟩
    · intro hcv
      unfold CudaArray.destructor
      rw [if_neg h]
    · intro h1 h2 h3 _
      exact absurd ⟨h1, h2, h3⟩ h

/-- Witness for C5: a failing free on a valid context raises the named
failure, and an invalid context produces no events. -/
theorem c5_destructor_free_witness :
    (CudaArray.destructor
      { pointer := 100, size := 10, elementSize := 4, name := "a",
        ownsMemory := true, context := 1 } true 7).error =
      some (deleteErrorMsg "a" 7) ∧
    (CudaArray.destructor
      { pointer := 100, size := 10, elementSize := 4, name := "a",
        ownsMemory := true, context := 1 } false 7).events = [] := by
  refine ⟨?_, ?_⟩
  · exact (c5_destructor_free
      { pointer := 100, size := 10, elementSize := 4, name := "a",
        ownsMemory := true, context := 1 } true 7).2.2 (by decide) rfl rfl (by decide)
  · exact (c5_destructor_free
      { pointer := 100, size := 10, elementSize := 4, name := "a",
        ownsMemory := true, context := 1 } false 7).2.1 rfl

/-- C6: on an initialized source, a destination whose element count or
element size differs makes `copyTo` throw the shape-mismatch failure
naming both buffers with an empty trace — before the unwrap downcast and
before any device call; and when both quantities match exactly, the unwrap
and the device-to-device copy are performed. -/
theorem c6_copyTo_shape_check (a dest : CudaArray) (copyResult stream : Nat)
    (hp : a.pointer ≠ 0) :
    ((dest.size ≠ a.size ∨ dest.elementSize ≠ a.elementSize) →
      (a.copyTo dest copyResult stream).error =
        some (copyShapeMsg a.name dest.name) ∧
      (a.copyTo dest copyResult stream).events = []) ∧
    (dest.size = a.size → dest.elementSize = a.elementSize →
      (a.copyTo dest copyResult stream).events =
        [Event.unwrapDest,
         Event.driverCall (DriverOp.memcpyDtoDAsync dest.pointer a.pointer
           (byteCount a.size a.elementSize) stream)]) := by
  constructor
  · intro h
    have hc : dest.getSize ≠ a.size ∨ dest.elementSize ≠ a.elementSize := by
      simpa [CudaArray.getSize] using h
    unfold CudaArray.copyTo
    rw [if_neg (by simpa using hp), if_pos hc]
    exact ⟨rfl, rfl⟩
  · intro h1 h2
    have hc : ¬(dest.getSize ≠ a.size ∨ dest.elementSize ≠ a.elementSize) := by
      simp [CudaArray.getSize, h1, h2]
    unfold CudaArray.copyTo
    rw [if_neg (by simpa using hp), if_neg hc]
    by_cases hcr : copyResult ≠ CUDA_SUCCESS
    · rw [if_pos hcr]
    · rw [if_neg hcr]

/-- Witness for C6: the spec's own test pair — element count 10 / size 4
against element count 5 / size 4 — fails with the shape mismatch and an
empty trace. -/
theorem c6_copyTo_shape_check_witness :
    (CudaArray.copyTo
      { pointer := 100, size := 10, elementSize := 4, name := "a",
        ownsMemory := true, context := 1 }
      { pointer := 200, size := 5, elementSize := 4, name := "b",
        ownsMemory := true, context := 1 } 0 0).error =
      some (copyShapeMsg "a" "b") ∧
    (CudaArray.copyTo
      { pointer := 100, size := 10, elementSize := 4, name := "a",
        ownsMemory := true, context := 1 }
      { pointer := 200, size := 5, elementSize := 4, name := "b",
        ownsMemory := true, context := 1 } 0 0).events = [] := by
  exact (c6_copyTo_shape_check
    { pointer := 100, size := 10, elementSize := 4, name := "a",
      ownsMemory := true, context := 1 }
    { pointer := 200, size := 5, elementSize := 4, name := "b",
      ownsMemory := true, context := 1 } 0 0 (by decide)).1 (by decide)

/-- C9: a successful `resize` on an initialized owning array (free and
allocation both succeed, and the allocator returns a nonzero address)
leaves the array initialized with the new element count while
`elementSize`, `name`, `context` and `ownsMemory` are unchanged, and the
resulting state equals the state a fresh `initialize` with the same
arguments produces from any uninitialized array. -/
theorem c9_resize_success (a fresh : CudaArray) (newSize allocPtr : Nat)
    (hp : a.pointer ≠ 0) (ho : a.ownsMemory = true) (hf : fresh.pointer = 0)
    (hap : allocPtr ≠ 0) :
    (a.resize newSize CUDA_SUCCESS CUDA_SUCCESS allocPtr).error = none ∧
    (a.resize newSize CUDA_SUCCESS CUDA_SUCCESS allocPtr).state.pointer = allocPtr ∧
    (a.resize newSize CUDA_SUCCESS CUDA_SUCCESS allocPtr).state.pointer ≠ 0 ∧
    (a.resize newSize CUDA_SUCCESS CUDA_SUCCESS allocPtr).state.size = newSize ∧
    (a.resize newSize CUDA_SUCCESS CUDA_SUCCESS allocPtr).state.elementSize =
      a.elementSize ∧
    (a.resize newSize CUDA_SUCCESS CUDA_SUCCESS allocPtr).state.name = a.name ∧
    (a.resize newSize CUDA_SUCCESS CUDA_SUCCESS allocPtr).state.context =
      a.context ∧
    (a.resize newSize CUDA_SUCCESS CUDA_SUCCESS allocPtr).state.ownsMemory =
      a.ownsMemory ∧
    (a.resize newSize CUDA_SUCCESS CUDA_SUCCESS allocPtr).state =
      ( fresh.initialize a.context newSize a.elementSize a.name CUDA_SUCCESS
        allocPtr).state := by
  unfold CudaArray.resize CudaArray.initialize
  simp [hp, ho, hf, hap]

/-- Witness for C9 at concrete arrays and a concrete new size. -/
theorem c9_resize_success_witness :
    (CudaArray.resize
      { pointer := 100, size := 10, elementSize := 4, name := "a",
        ownsMemory := true, context := 1 } 5 CUDA_SUCCESS CUDA_SUCCESS 300).error =
      none ∧
    (CudaArray.resize
      { pointer := 100, size := 10, elementSize := 4, name := "a",
        ownsMemory := true, context := 1 } 5 CUDA_SUCCESS CUDA_SUCCESS
        300).state.pointer = 300 ∧
    (CudaArray.resize
      { pointer := 100, size := 10, elementSize := 4, name := "a",
        ownsMemory := true, context := 1 } 5 CUDA_SUCCESS CUDA_SUCCESS
        300).state.pointer ≠ 0 ∧
    (CudaArray.resize
      { pointer := 100, size := 10, elementSize := 4, name := "a",
        ownsMemory := true, context := 1 } 5 CUDA_SUCCESS CUDA_SUCCESS
        300).state.size = 5 ∧
    (CudaArray.resize
      { pointer := 100, size := 10, elementSize := 4, name := "a",
        ownsMemory := true, context := 1 } 5 CUDA_SUCCESS CUDA_SUCCESS
        300).state.elementSize = 4 ∧
    (CudaArray.resize
      { pointer := 100, size := 10, elementSize := 4, name := "a",
        ownsMemory := true, context := 1 } 5 CUDA_SUCCESS CUDA_SUCCESS
        300).state.name = "a" ∧
    (CudaArray.resize
      { pointer := 100, size := 10, elementSize := 4, name := "a",
        ownsMemory := true, context := 1 } 5 CUDA_SUCCESS CUDA_SUCCESS
        300).state.context = 1 ∧
    (CudaArray.resize
      { pointer := 100, size := 10, elementSize := 4, name := "a",
        ownsMemory := true, context := 1 } 5 CUDA_SUCCESS CUDA_SUCCESS
        300).state.ownsMemory = true ∧
    (CudaArray.resize
      { pointer := 100, size := 10, elementSize := 4, name := "a",
        ownsMemory := true, context := 1 } 5 CUDA_SUCCESS CUDA_SUCCESS
        300).state =
      ( CudaArray.initialize
        { pointer := 0, size := 0, elementSize := 0, name := "",
          ownsMemory := false, context := 0 } 1 5 4 "a" CUDA_SUCCESS 300).state := by
  exact c9_resize_success
    { pointer := 100, size := 10, elementSize := 4, name := "a",
      ownsMemory := true, context := 1 }
    { pointer := 0, size := 0, elementSize := 0, name := "",
      ownsMemory := false, context := 0 } 5 300 (by decide) rfl rfl (by decide)

/-- C1 (counterexample): `uploadSubArray` performs its host-to-device copy
with no guard scope open — its trace is the bare driver call, and the
guarded-trace check rejects it — so not every driver call of the core
executes inside a Context Guard scope. -/
theorem c1_counterexample :
    hasDriverCall (CudaArray.uploadSubArray
      { pointer := 100, size := 10, elementSize := 4, name := "a",
        ownsMemory := true, context := 1 } 0 1 true 0 0).events = true ∧
    allCallsGuarded (CudaArray.uploadSubArray
      { pointer := 100, size := 10, elementSize := 4, name := "a",
        ownsMemory := true, context := 1 } 0 1 true 0 0).events = false := by
  decide

/-- C1 (amended): only `initialize`, `resize` and the destructor wrap their
driver calls (allocation and free) in a Context Guard scope; the transfer
operations `uploadSubArray`, `download` and `copyTo` acquire no guard at
all before invoking their copy primitives. -/
theorem c1_guard_coverage (a dest : CudaArray) (ctx sz newSize : Nat)
    (es offset elements : Int) (nm : String)
    (allocResult allocPtr freeResult copyResult stream : Nat)
    (contextIsValid blocking : Bool) :
    allCallsGuarded ( a.initialize ctx sz es nm allocResult allocPtr).events = true ∧
    allCallsGuarded (a.resize newSize freeResult allocResult allocPtr).events = true ∧
    allCallsGuarded (a.destructor contextIsValid freeResult).events = true ∧
    hasGuardAcquire
      (a.uploadSubArray offset elements blocking copyResult stream).events = false ∧
    hasGuardAcquire (a.download blocking copyResult stream).events = false ∧
    hasGuardAcquire (a.copyTo dest copyResult stream).events = false := by
  refine ⟨?_, ?_, ?_, ?_, ?_, ?_⟩
  · unfold CudaArray.initialize
    split
    · rfl
    · split <;> rfl
  · unfold CudaArray.resize CudaArray.initialize
    split
    · rfl
    · split
      · rfl
      · split
        · rfl
        · split
          · rfl
          · split <;> rfl
  · unfold CudaArray.destructor
    split
    · split <;> rfl
    · rfl
  · unfold CudaArray.uploadSubArray
    split
    · rfl
    · split
      · rfl
      · split <;> rfl
  · unfold CudaArray.download
    split
    · rfl
    · split <;> rfl
  · unfold CudaArray.copyTo
    split
    · rfl
    · split
      · rfl
      · split <;> rfl

/-- A nonnegative value below `2^64` converts to its own `toNat`. -/
theorem toU64_eq_toNat {n : Int} (h0 : 0 ≤ n) (h1 : n < (wordMod : Nat)) :
    toU64 n = n.toNat := by
  have h := toU64_coe_of_nonneg h0 h1
  omega

/-- C4 (counterexample): at `offset = 0`, `elementsToCopy = -1` on an
initialized array of element count `10`, the claim's guard
`offset < 0 ∨ offset + elementsToCopy > elementCount` is false, so the
claim demands a driver copy; but the code converts the sum `-1` to the
unsigned size type for the comparison and raises the bounds error with no
driver call. -/
theorem c4_counterexample :
    (CudaArray.uploadSubArray
      { pointer := 100, size := 10, elementSize := 4, name := "a",
        ownsMemory := true, context := 1 } 0 (-1) true 0 0).error =
      some boundsMsg ∧
    (CudaArray.uploadSubArray
      { pointer := 100, size := 10, elementSize := 4, name := "a",
        ownsMemory := true, context := 1 } 0 (-1) true 0 0).events = [] := by
  decide

/-- C4 (amended): on an initialized array, `uploadSubArray` raises the
bounds error and performs no driver call when `offset < 0`, when
`offset + elementsToCopy > elementCount`, or also when
`offset + elementsToCopy < 0` (the signed sum is converted to the unsigned
size type for the comparison, so negative sums are rejected as well);
when `0 ≤ offset`, `0 ≤ elementsToCopy` and
`offset + elementsToCopy ≤ elementCount`, it issues exactly one driver
copy — blocking or stream-ordered per the flag — and, when the products
fit the 64-bit types, that copy moves `elementsToCopy × elementSize` bytes
to device address `handle + offset × elementSize`. -/
theorem c4_uploadSubArray_bounds (a : CudaArray) (offset elements : Int)
    (blocking : Bool) (copyResult stream : Nat)
    (hp : ¬ a.pointer = 0) (hsz : (a.size : Int) < 2 ^ 63)
    (hlo : -(2 ^ 63) ≤ offset + elements) (hhi : offset + elements < 2 ^ 63) :
    ((offset < 0 ∨ (a.size : Int) < offset + elements ∨ offset + elements < 0) →
      (a.uploadSubArray offset elements blocking copyResult stream).error =
        some boundsMsg ∧
      (a.uploadSubArray offset elements blocking copyResult stream).events = []) ∧
    (0 ≤ offset → 0 ≤ elements → offset + elements ≤ (a.size : Int) →
      (a.uploadSubArray offset elements blocking copyResult stream).events =
        [Event.driverCall (uploadOp a offset elements blocking stream)] ∧
      (a.uploadSubArray offset elements blocking copyResult stream).error =
        (if copyResult ≠ CUDA_SUCCESS then some (uploadErrorMsg a.name copyResult)
         else none)) ∧
    (0 ≤ offset → 0 ≤ elements → 0 ≤ a.elementSize →
      elements * a.elementSize < (wordMod : Nat) →
      (a.pointer : Int) + offset * a.elementSize < (wordMod : Nat) →
      uploadOp a offset elements blocking stream =
        (if blocking then
          DriverOp.memcpyHtoD ((a.pointer : Int) + offset * a.elementSize).toNat
            (elements * a.elementSize).toNat
         else
          DriverOp.memcpyHtoDAsync ((a.pointer : Int) + offset * a.elementSize).toNat
            (elements * a.elementSize).toNat stream)) := by
  have hw : ((wordMod : Nat) : Int) = 2 ^ 64 := by norm_num [wordMod]
  refine ⟨?_, ?_, ?_⟩
  · intro h
    have hc : offset < 0 ∨ a.getSize < toU64 (offset + elements) := by
      rcases h with h | h | h
      · exact Or.inl h
      · refine Or.inr ?_
        have h0 : (0 : Int) ≤ offset + elements :=
          le_trans (Int.ofNat_nonneg a.size) (le_of_lt h)
        have hcast : (toU64 (offset + elements) : Int) = offset + elements :=
          toU64_coe_of_nonneg h0 (by rw [hw]; linarith)
        have : (a.size : Int) < (toU64 (offset + elements) : Int) := by
          rw [hcast]; exact h
        exact_mod_cast this
      · exact Or.inr (size_lt_toU64_of_neg hsz hlo h)
    unfold CudaArray.uploadSubArray
    rw [if_neg hp, if_pos hc]
    exact ⟨rfl, rfl⟩
  · intro h1 h2 h3
    have h0 : (0 : Int) ≤ offset + elements := add_nonneg h1 h2
    have hcast : (toU64 (offset + elements) : Int) = offset + elements :=
      toU64_coe_of_nonneg h0 (by rw [hw]; linarith)
    have hle : toU64 (offset + elements) ≤ a.size := by
      have : (toU64 (offset + elements) : Int) ≤ (a.size : Int) := by
        rw [hcast]; exact h3
      exact_mod_cast this
    have hc : ¬(offset < 0 ∨ a.getSize < toU64 (offset + elements)) := by
      simp only [CudaArray.getSize]
      push_neg
      exact ⟨h1, hle⟩
    unfold CudaArray.uploadSubArray
    rw [if_neg hp, if_neg hc]
    by_cases hcr : copyResult ≠ CUDA_SUCCESS
    · simp [hcr]
    · push_neg at hcr
      simp [hcr]
  · intro h1 h2 h3 h4 h5
    have hY0 : 0 ≤ elements * a.elementSize := mul_nonneg h2 h3
    have hX0 : 0 ≤ (a.pointer : Int) + offset * a.elementSize :=
      add_nonneg (Int.ofNat_nonneg a.pointer) (mul_nonneg h1 h3)
    unfold uploadOp
    rw [toU64_eq_toNat hY0 h4, toU64_eq_toNat hX0 h5]

/-- Witness for C4's amended theorem: an out-of-range request on a
concrete array is rejected with an empty trace, and an in-range request
issues the single expected copy call. -/
theorem c4_uploadSubArray_bounds_witness :
    ((CudaArray.uploadSubArray
      { pointer := 100, size := 10, elementSize := 4, name := "a",
        ownsMemory := true, context := 1 } 0 11 true 0 0).error =
        some boundsMsg ∧
     (CudaArray.uploadSubArray
      { pointer := 100, size := 10, elementSize := 4, name := "a",
        ownsMemory := true, context := 1 } 0 11 true 0 0).events = []) ∧
    (CudaArray.uploadSubArray
      { pointer := 100, size := 10, elementSize := 4, name := "a",
        ownsMemory := true, context := 1 } 2 3 true 0 0).events =
      [Event.driverCall (uploadOp
        { pointer := 100, size := 10, elementSize := 4, name := "a",
          ownsMemory := true, context := 1 } 2 3 true 0)] := by
  constructor
  · exact (c4_uploadSubArray_bounds
      { pointer := 100, size := 10, elementSize := 4, name := "a",
        ownsMemory := true, context := 1 } 0 11 true 0 0
      (by decide) (by decide) (by decide) (by decide)).1
      (Or.inr (Or.inl (by decide)))
  · exact ((c4_uploadSubArray_bounds
      { pointer := 100, size := 10, elementSize := 4, name := "a",
        ownsMemory := true, context := 1 } 2 3 true 0 0
      (by decide) (by decide) (by decide) (by decide)).2.1
      (by decide) (by decide) (by decide)).1

/-- C10: the bounds check does not reject a negative `elementsToCopy` when
the sum stays in range: at `offset = 1`, `elementsToCopy = -1` on an
initialized array of element count `10` and element size `4`, the sum
converts to `(size_t) 0`, the check `offset < 0 || offset+elements >
getSize()` fails, no bounds error is raised, and `cuMemcpyHtoD` is issued
at `handle + 1*4 = 404` with byte count `elementsToCopy * elementSize`
converted to the driver's unsigned size parameter,
`(size_t)(-4) = 2^64 - 4`. -/
theorem c10_negative_count_passes :
    (CudaArray.uploadSubArray
      { pointer := 400, size := 10, elementSize := 4, name := "d",
        ownsMemory := true, context := 3 } 1 (-1) true 0 0).error = none ∧
    (CudaArray.uploadSubArray
      { pointer := 400, size := 10, elementSize := 4, name := "d",
        ownsMemory := true, context := 3 } 1 (-1) true 0 0).events =
      [Event.driverCall (DriverOp.memcpyHtoD 404 (2 ^ 64 - 4))] ∧
    hasDriverCall (CudaArray.uploadSubArray
      { pointer := 400, size := 10, elementSize := 4, name := "d",
        ownsMemory := true, context := 3 } 1 (-1) true 0 0).events = true ∧
    toU64 ((-1 : Int) * 4) = 2 ^ 64 - 4 := by
  decide

end CudaArrayModel
